import Mathlib

/-!
Shallow embedding of `src/python_api/examples/demo.py`.

The script connects to a websocket endpoint, spawns one camera, spawns a
4 by 4 by 4 lattice of cubes at computed coordinates, requests the list of
camera ids, prints it, and disconnects.

All floating-point arithmetic in the script (`x * 1.5 - 2.25` for
`x` in 0..3, and `(4 - 1) * 1.5 / 2`) is exact in IEEE-754 double
precision: every operand and every intermediate result is a dyadic
rational with a short mantissa, so no rounding occurs.  We therefore
model the numeric values as rationals, which agrees value-for-value with
the Python computation.
-/

/-- Constant from line 8 of the script: `LATTICE_SIZE = 4`. -/
def LATTICE_SIZE : Nat := 4

/-- Constant from line 9 of the script: `SPACING = 1.5`. -/
def SPACING : ℚ := 3 / 2

/-- Line 10 of the script: `offset = (LATTICE_SIZE - 1) * SPACING / 2`. -/
def offset : ℚ := (LATTICE_SIZE - 1 : ℚ) * SPACING / 2

/-- Lines 15-17 of the script: the coordinate generated for loop index `i`
along any axis, `i * SPACING - offset`. -/
def coord (i : Nat) : ℚ := (i : ℚ) * SPACING - offset

/-- The websocket endpoint passed to `conn.connect` on line 4. -/
def serverUrl : String := "ws://localhost:9124"

/-- The camera name passed to `spawn_camera` on line 6. -/
def cameraName : String := "MainCamera"

/-- The f-string `f"Cube_{x}_{y}_{z}"` from line 24. -/
def cubeName (x y z : Nat) : String :=
  "Cube_" ++ toString x ++ "_" ++ toString y ++ "_" ++ toString z

/-- One remote call issued by the script, with all its arguments. -/
inductive RemoteCall : Type where
  | connect (url : String)
  | spawnCamera (x y z : ℚ) (name : String)
  | spawnCube (x y z : ℚ) (size : ℚ) (name : String)
  | requestCameras
  | disconnect
deriving DecidableEq, Repr

/-- Whether a remote call is a `connect`. -/
def isConnect : RemoteCall → Bool
  | RemoteCall.connect _ => true
  | _ => false

/-- Whether a remote call is a `spawn_camera`. -/
def isSpawnCamera : RemoteCall → Bool
  | RemoteCall.spawnCamera _ _ _ _ => true
  | _ => false

/-- Whether a remote call is a `spawn_cube`. -/
def isSpawnCube : RemoteCall → Bool
  | RemoteCall.spawnCube _ _ _ _ _ => true
  | _ => false

/-- Whether a remote call is a `disconnect`. -/
def isDisconnect : RemoteCall → Bool
  | RemoteCall.disconnect => true
  | _ => false

/-- The loop indices `(x, y, z)` of the triple-nested loop on lines 11-13,
in the order Python visits them. -/
def latticeIndices : List (Nat × Nat × Nat) :=
  (List.range LATTICE_SIZE).flatMap fun x =>
    (List.range LATTICE_SIZE).flatMap fun y =>
      (List.range LATTICE_SIZE).map fun z => (x, y, z)

/-- The `spawn_cube` call issued by the body of the loop (lines 20-25) for the
loop indices `p = (x, y, z)`. -/
def mkCubeCall (p : Nat × Nat × Nat) : RemoteCall :=
  RemoteCall.spawnCube (coord p.1) (coord p.2.1) (coord p.2.2) 1
    (cubeName p.1 p.2.1 p.2.2)

/-- The 64 `spawn_cube` calls of the loop, in program order. -/
def cubeCalls : List RemoteCall := latticeIndices.map mkCubeCall

/-- The coordinate triples passed to `spawn_cube`, in program order. -/
def cubePositions : List (ℚ × ℚ × ℚ) :=
  latticeIndices.map fun p => (coord p.1, coord p.2.1, coord p.2.2)

/-- An oracle for the values the server returns on each call, for executions
in which every remote call succeeds.  Camera and cube ids are modelled as
natural numbers; the script never inspects them, so their type is
immaterial. -/
structure Server : Type where
  spawnCameraResp : ℚ → ℚ → ℚ → String → Nat
  spawnCubeResp : ℚ → ℚ → ℚ → ℚ → String → Nat
  requestCamerasResp : List Nat

/-- Result of a (successful) run of the script: the ordered list of remote
calls it issued and the line it printed. -/
structure ScriptResult : Type where
  trace : List RemoteCall
  printed : String
deriving DecidableEq, Repr

/-- The script, lines 3-31, as a pure trace-producing function of the server
oracle.  Each response is bound exactly as the Python binds `camera_id`,
`cube_id` and `camera_ids`; only `camera_ids` is ever read again (by the
`print` on line 28). -/
def runScript (srv : Server) : ScriptResult :=
  let t0 : List RemoteCall := [RemoteCall.connect serverUrl]
  let _camera_id := srv.spawnCameraResp 0 10 15 cameraName
  let t1 := t0 ++ [RemoteCall.spawnCamera 0 10 15 cameraName]
  let t2 := t1 ++ latticeIndices.map fun p =>
    let pos_x := coord p.1
    let pos_y := coord p.2.1
    let pos_z := coord p.2.2
    let _cube_id := srv.spawnCubeResp pos_x pos_y pos_z 1 (cubeName p.1 p.2.1 p.2.2)
    RemoteCall.spawnCube pos_x pos_y pos_z 1 (cubeName p.1 p.2.1 p.2.2)
  let camera_ids := srv.requestCamerasResp
  let t3 := t2 ++ [RemoteCall.requestCameras]
  let t4 := t3 ++ [RemoteCall.disconnect]
  { trace := t4, printed := "Found cameras: " ++ toString camera_ids }

/-- An oracle for executions in which remote calls may fail: `none` models
the client library raising an exception for that call.  The script has no
exception handling, so an exception terminates it. -/
structure FServer : Type where
  connectResp : Option Unit
  spawnCameraResp : ℚ → ℚ → ℚ → String → Option Nat
  spawnCubeResp : ℚ → ℚ → ℚ → ℚ → String → Option Nat
  requestCamerasResp : Option (List Nat)

/-- The cube loop of lines 11-25 under the fallible oracle: issues one
`spawn_cube` per remaining index, stopping at the first failure.  Returns
the accumulated trace and whether the loop completed. -/
def loopF (srv : FServer) : List (Nat × Nat × Nat) → List RemoteCall →
    List RemoteCall × Bool
  | [], t => (t, true)
  | p :: ps, t =>
    let t1 := t ++ [mkCubeCall p]
    match srv.spawnCubeResp (coord p.1) (coord p.2.1) (coord p.2.2) 1
        (cubeName p.1 p.2.1 p.2.2) with
    | none => (t1, false)
    | some _cube_id => loopF srv ps t1

/-- The whole script under the fallible oracle: the trace of calls issued
(a failing call is issued, then raises) and whether the script ran to
completion.  There is no `try`/`finally` in the source, so a failure
anywhere terminates the script at that point. -/
def runScriptF (srv : FServer) : List RemoteCall × Bool :=
  let t0 : List RemoteCall := [RemoteCall.connect serverUrl]
  match srv.connectResp with
  | none => (t0, false)
  | some _ =>
    let t1 := t0 ++ [RemoteCall.spawnCamera 0 10 15 cameraName]
    match srv.spawnCameraResp 0 10 15 cameraName with
    | none => (t1, false)
    | some _camera_id =>
      match loopF srv latticeIndices t1 with
      | (t2, false) => (t2, false)
      | (t2, true) =>
        let t3 := t2 ++ [RemoteCall.requestCameras]
        match srv.requestCamerasResp with
        | none => (t3, false)
        | some _camera_ids => (t3 ++ [RemoteCall.disconnect], true)

/-- A server oracle on which every call succeeds. -/
def allOkServer : FServer :=
  { connectResp := some ()
    spawnCameraResp := fun _ _ _ _ => some 0
    spawnCubeResp := fun _ _ _ _ _ => some 0
    requestCamerasResp := some [] }

/-- A server oracle on which `spawn_camera` raises. -/
def cameraFailServer : FServer :=
  { connectResp := some ()
    spawnCameraResp := fun _ _ _ _ => none
    spawnCubeResp := fun _ _ _ _ _ => some 0
    requestCamerasResp := some [] }

/-- A fixed server oracle used to instantiate universally quantified
statements about successful runs. -/
def defaultServer : Server :=
  { spawnCameraResp := fun _ _ _ _ => 0
    spawnCubeResp := fun _ _ _ _ _ => 0
    requestCamerasResp := [] }

/-- Strict lexicographic order on loop-index triples: the order in which the
triple-nested `for` loops of lines 11-13 visit them. -/
def ltLex (a b : Nat × Nat × Nat) : Prop :=
  a.1 < b.1 ∨ (a.1 = b.1 ∧ (a.2.1 < b.2.1 ∨ (a.2.1 = b.2.1 ∧ a.2.2 < b.2.2)))

instance (a b : Nat × Nat × Nat) : Decidable (ltLex a b) := by
  unfold ltLex
  infer_instance

/-- The full call sequence of the script when every call succeeds: `connect`,
one `spawn_camera`, the 64 `spawn_cube` calls, `request_cameras`,
`disconnect`. -/
def expectedTrace : List RemoteCall :=
  RemoteCall.connect serverUrl :: RemoteCall.spawnCamera 0 10 15 cameraName ::
    (cubeCalls ++ [RemoteCall.requestCameras, RemoteCall.disconnect])

/-- The multiset of x-coordinates passed to `spawn_cube`. -/
def axisCoordsX : Multiset ℚ := ↑(cubePositions.map fun p => p.1)

/-- The multiset of y-coordinates passed to `spawn_cube`. -/
def axisCoordsY : Multiset ℚ := ↑(cubePositions.map fun p => p.2.1)

/-- The multiset of z-coordinates passed to `spawn_cube`. -/
def axisCoordsZ : Multiset ℚ := ↑(cubePositions.map fun p => p.2.2)

/-- Negating a generated coordinate reflects the index across the lattice:
for indices below `LATTICE_SIZE`, `-(coord i) = coord (3 - i)`. -/
lemma neg_coord (i : Nat) (hi : i < LATTICE_SIZE) : -coord i = coord (3 - i) := by
  have h4 : i < 4 := hi
  interval_cases i <;> norm_num [coord, offset, SPACING, LATTICE_SIZE]

/-- Every generated coordinate lies in the closed interval from -9/4 to 9/4. -/
lemma coord_bounds (i : Nat) (hi : i < LATTICE_SIZE) :
    -(9/4 : ℚ) ≤ coord i ∧ coord i ≤ 9/4 := by
  have h4 : i < 4 := hi
  interval_cases i <;> norm_num [coord, offset, SPACING, LATTICE_SIZE]

/-- Every loop-index triple has all three components below `LATTICE_SIZE`. -/
lemma latticeIndices_bounds : ∀ q ∈ latticeIndices,
    q.1 < LATTICE_SIZE ∧ q.2.1 < LATTICE_SIZE ∧ q.2.2 < LATTICE_SIZE := by decide

/-- Every triple with all three components below `LATTICE_SIZE` occurs among
the loop indices. -/
lemma latticeIndices_complete : ∀ a ∈ List.range LATTICE_SIZE,
    ∀ b ∈ List.range LATTICE_SIZE, ∀ c ∈ List.range LATTICE_SIZE,
    (a, b, c) ∈ latticeIndices := by decide

/-- Packaging of `latticeIndices_complete` with ordinary bound hypotheses. -/
lemma mem_latticeIndices_of_lt (a b c : Nat) (ha : a < LATTICE_SIZE)
    (hb : b < LATTICE_SIZE) (hc : c < LATTICE_SIZE) : (a, b, c) ∈ latticeIndices :=
  latticeIndices_complete a (List.mem_range.mpr ha) b (List.mem_range.mpr hb)
    c (List.mem_range.mpr hc)

/-- Generic per-axis negation closure: if a component selector stays below
`LATTICE_SIZE` on the loop indices and the selected index multiset is closed
under reflection, then the multiset of generated coordinates along that axis
is closed under negation. -/
lemma axis_closed (sel : Nat × Nat × Nat → Nat)
    (hb : ∀ q ∈ latticeIndices, sel q < LATTICE_SIZE)
    (hsel : (↑(latticeIndices.map fun q => 3 - sel q) : Multiset Nat) =
      ↑(latticeIndices.map fun q => sel q)) :
    Multiset.map (fun r : ℚ => -r)
        (↑(latticeIndices.map fun q => coord (sel q)) : Multiset ℚ) =
      (↑(latticeIndices.map fun q => coord (sel q)) : Multiset ℚ) := by
  have h1 : (latticeIndices.map fun q => -(coord (sel q))) =
      (latticeIndices.map fun q => coord (3 - sel q)) :=
    List.map_congr_left fun q hq => neg_coord (sel q) (hb q hq)
  calc Multiset.map (fun r : ℚ => -r)
        (↑(latticeIndices.map fun q => coord (sel q)) : Multiset ℚ)
      = ↑(latticeIndices.map fun q => -(coord (sel q))) := by
        simp [Multiset.map_coe, List.map_map]
        rfl
    _ = ↑(latticeIndices.map fun q => coord (3 - sel q)) := by rw [h1]
    _ = Multiset.map coord (↑(latticeIndices.map fun q => 3 - sel q) : Multiset Nat) := by
        simp [Multiset.map_coe, List.map_map]
        rfl
    _ = Multiset.map coord (↑(latticeIndices.map fun q => sel q) : Multiset Nat) := by
        rw [hsel]
    _ = ↑(latticeIndices.map fun q => coord (sel q)) := by
        simp [Multiset.map_coe, List.map_map]
        rfl

/-- A `spawn_cube` call is never the `disconnect` call. -/
lemma mkCubeCall_ne_disconnect (p : Nat × Nat × Nat) :
    mkCubeCall p ≠ RemoteCall.disconnect := by
  simp [mkCubeCall]

/-- The cube loop never issues a `disconnect`: if the accumulated trace does
not contain one, neither does the trace the loop returns, whether or not a
`spawn_cube` call fails. -/
lemma loopF_no_disconnect (srv : FServer) (ps : List (Nat × Nat × Nat))
    (t : List RemoteCall) (h : RemoteCall.disconnect ∉ t) :
    RemoteCall.disconnect ∉ (loopF srv ps t).1 := by
  induction ps generalizing t with
  | nil => simpa [loopF] using h
  | cons p ps ih =>
    have h1 : RemoteCall.disconnect ∉ t ++ [mkCubeCall p] := by
      intro hc
      rcases List.mem_append.mp hc with hc | hc
      · exact h hc
      · exact mkCubeCall_ne_disconnect p (List.mem_singleton.mp hc).symm
    rcases hres : srv.spawnCubeResp (coord p.1) (coord p.2.1) (coord p.2.2) 1
        (cubeName p.1 p.2.1 p.2.2) with _ | id
    · simp [loopF, hres, h1]
    · simp only [loopF, hres]
      exact ih _ h1

/-- Claim C1: for every axis index i with 0 <= i < LATTICE_SIZE, the
coordinate the script generates along that axis equals
i * SPACING - (LATTICE_SIZE - 1) * SPACING / 2, and every generated
position triple consists of such coordinates for in-range indices. -/
theorem claim_C1 :
    (∀ i, i < LATTICE_SIZE →
      coord i = (i : ℚ) * SPACING - ((LATTICE_SIZE : ℚ) - 1) * SPACING / 2) ∧
    (∀ t ∈ cubePositions, ∃ x y z, x < LATTICE_SIZE ∧ y < LATTICE_SIZE ∧
      z < LATTICE_SIZE ∧ t = (coord x, coord y, coord z)) := by
  constructor
  · intro i _
    rfl
  · intro t ht
    obtain ⟨q, hq, rfl⟩ := List.mem_map.mp ht
    obtain ⟨h1, h2, h3⟩ := latticeIndices_bounds q hq
    exact ⟨q.1, q.2.1, q.2.2, h1, h2, h3, rfl⟩

/-- Witness for claim C1 at index 1. -/
theorem claim_C1_witness :
    coord 1 = (1 : ℚ) * SPACING - ((LATTICE_SIZE : ℚ) - 1) * SPACING / 2 :=
  claim_C1.1 1 (by decide)

/-- Claim C2: the script generates exactly 64 coordinate triples, issues one
spawn_cube call per triple, and the 64 generated names are pairwise
distinct. -/
theorem claim_C2 :
    cubePositions.length = 64 ∧ cubeCalls.length = 64 ∧
    (latticeIndices.map fun p => cubeName p.1 p.2.1 p.2.2).Nodup := by
  refine ⟨by decide, by decide, by decide⟩

/-- Claim C3: with LATTICE_SIZE = 4 and SPACING = 3/2 the centering offset is
exactly 9/4 = 2.25, the coordinate for index 0 is exactly -2.25, and the
coordinate for index 3 is exactly 2.25. -/
theorem claim_C3 : offset = 9/4 ∧ coord 0 = -(9/4 : ℚ) ∧ coord 3 = 9/4 := by
  norm_num [coord, offset, SPACING, LATTICE_SIZE]

/-- Claim C4: the grid is symmetric about the origin: the negation of every
generated triple is also generated, and along each axis the multiset of
generated coordinates is closed under negation. -/
theorem claim_C4 :
    (∀ p ∈ cubePositions, (-p.1, -p.2.1, -p.2.2) ∈ cubePositions) ∧
    Multiset.map (fun r : ℚ => -r) axisCoordsX = axisCoordsX ∧
    Multiset.map (fun r : ℚ => -r) axisCoordsY = axisCoordsY ∧
    Multiset.map (fun r : ℚ => -r) axisCoordsZ = axisCoordsZ := by
  refine ⟨?_, ?_, ?_, ?_⟩
  · intro p hp
    obtain ⟨q, hq, rfl⟩ := List.mem_map.mp hp
    obtain ⟨h1, h2, h3⟩ := latticeIndices_bounds q hq
    refine List.mem_map.mpr ⟨(3 - q.1, 3 - q.2.1, 3 - q.2.2), ?_, ?_⟩
    · refine mem_latticeIndices_of_lt _ _ _ ?_ ?_ ?_ <;>
        · simp only [LATTICE_SIZE] at h1 h2 h3 ⊢
          omega
    · simp [neg_coord q.1 h1, neg_coord q.2.1 h2, neg_coord q.2.2 h3]
  · have hx : axisCoordsX = ↑(latticeIndices.map fun q => coord q.1) := by
      show (↑(cubePositions.map fun p => p.1) : Multiset ℚ) = _
      norm_cast
    rw [hx]
    exact axis_closed (fun q => q.1) (fun q hq => (latticeIndices_bounds q hq).1)
      (by decide)
  · have hy : axisCoordsY = ↑(latticeIndices.map fun q => coord q.2.1) := by
      show (↑(cubePositions.map fun p => p.2.1) : Multiset ℚ) = _
      norm_cast
    rw [hy]
    exact axis_closed (fun q => q.2.1)
      (fun q hq => (latticeIndices_bounds q hq).2.1) (by decide)
  · have hz : axisCoordsZ = ↑(latticeIndices.map fun q => coord q.2.2) := by
      show (↑(cubePositions.map fun p => p.2.2) : Multiset ℚ) = _
      norm_cast
    rw [hz]
    exact axis_closed (fun q => q.2.2)
      (fun q hq => (latticeIndices_bounds q hq).2.2) (by decide)

/-- Witness for claim C4 at the triple generated for indices (0, 0, 0). -/
theorem claim_C4_witness :
    (-(coord 0), -(coord 0), -(coord 0)) ∈ cubePositions :=
  claim_C4.1 (coord 0, coord 0, coord 0)
    (List.mem_map.mpr ⟨(0, 0, 0), by decide, rfl⟩)

/-- Claim C5: on every successful execution the remote calls are issued
strictly in program order: connect, one spawn_camera, the 64 spawn_cube
calls in lexicographic order of their loop indices, request_cameras,
disconnect. -/
theorem claim_C5 (srv : Server) :
    (runScript srv).trace = expectedTrace ∧ List.Pairwise ltLex latticeIndices :=
  ⟨rfl, by decide⟩

/-- Witness for claim C5 at a concrete server oracle. -/
theorem claim_C5_witness :
    (runScript defaultServer).trace = expectedTrace ∧
      List.Pairwise ltLex latticeIndices :=
  claim_C5 defaultServer

/-- Claim C6: every successful execution uses exactly one connection: one
connect, one disconnect, the connect first and the disconnect last. -/
theorem claim_C6 (srv : Server) :
    (runScript srv).trace.countP isConnect = 1 ∧
    (runScript srv).trace.countP isDisconnect = 1 ∧
    (runScript srv).trace.head? = some (RemoteCall.connect serverUrl) ∧
    (runScript srv).trace.getLast? = some RemoteCall.disconnect :=
  ⟨rfl, rfl, rfl, rfl⟩

/-- Witness for claim C6 at a concrete server oracle. -/
theorem claim_C6_witness :
    (runScript defaultServer).trace.countP isConnect = 1 ∧
    (runScript defaultServer).trace.countP isDisconnect = 1 ∧
    (runScript defaultServer).trace.head? = some (RemoteCall.connect serverUrl) ∧
    (runScript defaultServer).trace.getLast? = some RemoteCall.disconnect :=
  claim_C6 defaultServer

/-- Counterexample to claim C7 as stated: on the execution path where the
spawn_camera call raises, the script terminates without ever calling
disconnect. -/
theorem claim_C7_counterexample :
    RemoteCall.disconnect ∉ (runScriptF cameraFailServer).1 ∧
    (runScriptF cameraFailServer).2 = false := by
  refine ⟨by decide, rfl⟩

/-- Claim C7 as amended: on executions where every remote call succeeds,
disconnect is the last call issued; on executions where some remote call
fails, the script terminates without ever calling disconnect (the source
has no scoped cleanup). -/
theorem claim_C7 (srv : FServer) :
    ((runScriptF srv).2 = true →
      (runScriptF srv).1.getLast? = some RemoteCall.disconnect) ∧
    ((runScriptF srv).2 = false → RemoteCall.disconnect ∉ (runScriptF srv).1) := by
  have hstart : RemoteCall.disconnect ∉
      [RemoteCall.connect serverUrl, RemoteCall.spawnCamera 0 10 15 cameraName] := by
    simp
  rcases h1 : srv.connectResp with _ | u
  · simp [runScriptF, h1]
  rcases h2 : srv.spawnCameraResp 0 10 15 cameraName with _ | cid
  · simp [runScriptF, h1, h2]
  rcases hloop : loopF srv latticeIndices
      [RemoteCall.connect serverUrl, RemoteCall.spawnCamera 0 10 15 cameraName] with ⟨t2, b⟩
  have ht2 : RemoteCall.disconnect ∉ t2 := by
    have hnd := loopF_no_disconnect srv latticeIndices
      [RemoteCall.connect serverUrl, RemoteCall.spawnCamera 0 10 15 cameraName] hstart
    rwa [hloop] at hnd
  cases b with
  | false => simp [runScriptF, h1, h2, hloop, ht2]
  | true =>
    rcases h3 : srv.requestCamerasResp with _ | ids
    · simp [runScriptF, h1, h2, hloop, h3, ht2]
    · simp [runScriptF, h1, h2, hloop, h3]

/-- Witness for claim C7 on the all-success oracle. -/
theorem claim_C7_witness :
    (runScriptF allOkServer).1.getLast? = some RemoteCall.disconnect :=
  (claim_C7 allOkServer).1 (by decide)

/-- Claim C8: the sequence of remote calls and all their arguments is
identical in any two runs, whatever the server returns: the returned ids
never influence any call. -/
theorem claim_C8 (srv1 srv2 : Server) :
    (runScript srv1).trace = (runScript srv2).trace := rfl

/-- Witness for claim C8 at concrete server oracles. -/
theorem claim_C8_witness :
    (runScript defaultServer).trace = (runScript defaultServer).trace :=
  claim_C8 defaultServer defaultServer

/-- Claim C9: exactly one camera is spawned, at position (0, 10, 15) with
name MainCamera, and its spawn_camera call precedes every spawn_cube
call. -/
theorem claim_C9 (srv : Server) :
    (runScript srv).trace.countP isSpawnCamera = 1 ∧
    (runScript srv).trace.get? 1 = some (RemoteCall.spawnCamera 0 10 15 cameraName) ∧
    ((runScript srv).trace.takeWhile fun c => !(isSpawnCube c)).countP
      isSpawnCamera = 1 :=
  ⟨rfl, rfl, rfl⟩

/-- Witness for claim C9 at a concrete server oracle. -/
theorem claim_C9_witness :
    (runScript defaultServer).trace.countP isSpawnCamera = 1 ∧
    (runScript defaultServer).trace.get? 1 =
      some (RemoteCall.spawnCamera 0 10 15 cameraName) ∧
    ((runScript defaultServer).trace.takeWhile fun c => !(isSpawnCube c)).countP
      isSpawnCamera = 1 :=
  claim_C9 defaultServer

/-- Claim C10: every spawn_cube call passes size exactly 1, and every
position component it passes lies in the closed interval from -9/4 to
9/4 (that is, from -2.25 to 2.25). -/
theorem claim_C10 : ∀ x y z s n, RemoteCall.spawnCube x y z s n ∈ cubeCalls →
    s = 1 ∧ -(9/4 : ℚ) ≤ x ∧ x ≤ 9/4 ∧ -(9/4 : ℚ) ≤ y ∧ y ≤ 9/4 ∧
      -(9/4 : ℚ) ≤ z ∧ z ≤ 9/4 := by
  intro x y z s n h
  obtain ⟨q, hq, he⟩ := List.mem_map.mp h
  obtain ⟨h1, h2, h3⟩ := latticeIndices_bounds q hq
  simp only [mkCubeCall, RemoteCall.spawnCube.injEq] at he
  obtain ⟨hx, hy, hz, hs, -⟩ := he
  subst hx
  subst hy
  subst hz
  subst hs
  exact ⟨rfl, (coord_bounds q.1 h1).1, (coord_bounds q.1 h1).2,
    (coord_bounds q.2.1 h2).1, (coord_bounds q.2.1 h2).2,
    (coord_bounds q.2.2 h3).1, (coord_bounds q.2.2 h3).2⟩

/-- Witness for claim C10 at the spawn_cube call for indices (0, 0, 0). -/
theorem claim_C10_witness :
    (1 : ℚ) = 1 ∧ -(9/4 : ℚ) ≤ coord 0 ∧ coord 0 ≤ 9/4 ∧
      -(9/4 : ℚ) ≤ coord 0 ∧ coord 0 ≤ 9/4 ∧ -(9/4 : ℚ) ≤ coord 0 ∧ coord 0 ≤ 9/4 :=
  claim_C10 (coord 0) (coord 0) (coord 0) 1 (cubeName 0 0 0)
    (List.mem_map.mpr ⟨(0, 0, 0), by decide, rfl⟩)
